import Mathlib

/-!
Verification development for the `azureml-client` library.

This file gives a shallow embedding, in Lean 4, of the parts of the library
that the verified properties talk about:

* the blob-reference construction of `base_databinding_blobs.py`
  (`create_blob_ref`, `create_blob_refs`, `_get_valid_blob_path_prefix`) and
  the legacy validation of `ws_execution.py`
  (`ByReference_Converters._get_valid_blob_name_prefix`, `createBlobCsvRef`);
* the table codec of `base_databinding.py` (`df_to_azmltable`,
  `azmltable_to_df`, `params_df_to_params_dict`, `azml_json_serializer`,
  `AzmlException.__init__`);
* the batch-job lifecycle of `base.py` (`execute_bes` and
  `BatchClient.read_status_or_result_static`).

Modelling conventions.  Python exceptions become an explicit `PyExc` error
type and fallible code returns `Except PyExc α`.  Dynamic `isinstance`
dispatch is embedded as boolean type-membership flags carried by the value.
Python string formatting is reproduced textually except that the quote
characters Python's `repr` would add around strings are elided, and the
rendering of nested containers inside diagnostic messages is abbreviated;
no verified property depends on those details of message texts.
-/

/-- The Python exceptions raised by the code under study. -/
inductive PyExc where
  | keyError (k : String)
  | indexError
  | typeError (msg : String)
  | valueError (msg : String)
  | illegalJobState (msg : String)
  | jobExecution (msg : String)
  | transportError (msg : String)
  | azmlError (msg : String)
deriving DecidableEq

/-- `True` iff the `Except` value is a success. -/
def exceptIsOk {α : Type} : Except PyExc α → Bool
  | .ok _ => true
  | .error _ => false

/-! ## Blob references (`base_databinding_blobs.py`, legacy `ws_execution.py`) -/

/-- An AzureML blob reference, as built by `create_blob_ref`:
`{ConnectionString: ..., RelativeLocation: ...}`. -/
structure BlobRef where
  connectionString : String
  relativeLocation : String
deriving DecidableEq

/-- Python `s.endswith(t)`, over the code points of the strings. -/
def strEndsWith (s t : String) : Bool :=
  s.data.reverse.take t.data.length == t.data.reverse

/-- Python `s.lower()`. -/
def strToLower (s : String) : String :=
  ⟨s.data.map Char.toLower⟩

/-- Python slicing `s[:-n]` for `n ≤ len(s)`: drop the last `n` code
points. -/
def strDropRight (s : String) (n : Nat) : String :=
  ⟨s.data.take (s.data.length - n)⟩

/-- Python `c in s` for a single character `c`. -/
def strContainsChar (s : String) (c : Char) : Bool :=
  s.data.contains c

/-- `_get_blob_service_connection_string`: connection string from account
name and key. -/
def get_blob_service_connection_string (account_name account_key : String) : String :=
  "DefaultEndpointsProtocol=https;AccountName=" ++ account_name ++
    ";AccountKey=" ++ account_key

/-- The `blob_name` fixing step of `create_blob_ref`: a trailing `.csv` is
stripped case-insensitively (`blob_name.lower().endswith('.csv')` then
`blob_name[:-4]`). -/
def fix_blob_name (blob_name : String) : String :=
  if strEndsWith (strToLower blob_name) ".csv" then strDropRight blob_name 4 else blob_name

/-- `_get_valid_blob_path_prefix`: `None` becomes the empty string and a
non-empty path gains a trailing slash when it lacks one. -/
def get_valid_blob_path_pfx : Option String → String
  | none => ""
  | some s => if s.length > 0 && !(strEndsWith s "/") then s ++ "/" else s

/-- `create_blob_ref` of `base_databinding_blobs.py`: builds the blob
reference and the full blob name.  The `BlockBlobService` argument is
represented by its account name and key, which are all the source reads
from it. -/
def create_blob_ref (account_name account_key blob_container blob_name : String)
    (blob_path_pfx : Option String) : BlobRef × String :=
  let name := fix_blob_name blob_name
  let connection_str := get_blob_service_connection_string account_name account_key
  let pfx := get_valid_blob_path_pfx blob_path_pfx
  let blob_full_name := pfx ++ name ++ ".csv"
  let relative_location := blob_container ++ "/" ++ blob_full_name
  ({ connectionString := connection_str, relativeLocation := relative_location },
    blob_full_name)

/-- `create_blob_refs` of `base_databinding_blobs.py`: a `None` name prefix
becomes the empty string, then each name is prefixed and passed to
`create_blob_ref`.  Note: no validation of the name prefix is performed
here. -/
def create_blob_refs (account_name account_key blob_container : String)
    (blob_names : List String) (blob_path_pfx blob_name_pfx : Option String) :
    List (String × BlobRef) :=
  let np := blob_name_pfx.getD ""
  blob_names.map (fun blob_name =>
    (blob_name,
      (create_blob_ref account_name account_key blob_container (np ++ blob_name)
        blob_path_pfx).fst))

/-- Legacy `ByReference_Converters._get_valid_blob_name_prefix` of
`ws_execution.py`: rejects a name prefix containing a path separator. -/
def get_valid_blob_name_pfx : Option String → Except PyExc String
  | none => .ok ""
  | some s =>
    if strContainsChar s '/' || strContainsChar s '\\' then
      .error (.valueError "Blob name prefix should not contain / nor \\")
    else
      .ok s

/-- Legacy `ByReference_Converters.createBlobCsvRef` of `ws_execution.py`:
same naming scheme as `create_blob_ref`, but the name prefix is validated
by `get_valid_blob_name_pfx` before being inserted into the relative
location. -/
def createBlobCsvRef (account_name account_key blob_container blob_name : String)
    (blob_path_pfx blob_name_pfx : Option String) : Except PyExc BlobRef :=
  let name := fix_blob_name blob_name
  let connection_str := get_blob_service_connection_string account_name account_key
  let pfx := get_valid_blob_path_pfx blob_path_pfx
  match get_valid_blob_name_pfx blob_name_pfx with
  | .error e => .error e
  | .ok npfx =>
      .ok { connectionString := connection_str,
            relativeLocation :=
              blob_container ++ "/" ++ pfx ++ npfx ++ name ++ ".csv" }

/-- C8: creating a blob reference for container `c`, name `Foo.CSV`, path
prefix `p` and name prefix `x-` yields `RelativeLocation = c/p/x-Foo.csv`;
a path prefix already ending in a slash and a name already carrying a
lowercase `.csv` suffix give the same location, so the slash and the
`.csv` suffix each appear exactly once. -/
theorem C8_create_blob_ref_naming :
    (create_blob_refs "acct" "key123" "c" ["Foo.CSV"] (some "p") (some "x-")).map
        (fun kv => (kv.fst, kv.snd.relativeLocation)) = [("Foo.CSV", "c/p/x-Foo.csv")]
      ∧ (create_blob_ref "acct" "key123" "c" "x-Foo.csv" (some "p/")).fst.relativeLocation
          = "c/p/x-Foo.csv" := by
  constructor <;> decide

/-- C9 counterexample: `create_blob_refs` performs no validation of the
name prefix, so a name prefix containing the path separator `/` produces a
reference (with the separator embedded in the relative location) instead
of failing. -/
theorem C9_name_pfx_separator_not_rejected :
    (create_blob_refs "acct" "key123" "c" ["n"] none (some "x/y-")).map
      (fun kv => (kv.fst, kv.snd.relativeLocation)) = [("n", "c/x/y-n.csv")] := by
  decide

/-- C9 (amended): only the legacy `createBlobCsvRef` of `ws_execution.py`
rejects a name prefix containing `/` or `\`; the current
`create_blob_refs` of `base_databinding_blobs.py` performs no such check
and always yields one reference per requested name. -/
theorem C9_legacy_rejects_separator_modern_does_not (pfx : String)
    (h : strContainsChar pfx '/' = true ∨ strContainsChar pfx '\\' = true) :
    createBlobCsvRef "acct" "key123" "c" "n" none (some pfx)
        = .error (.valueError "Blob name prefix should not contain / nor \\")
      ∧ (create_blob_refs "acct" "key123" "c" ["n"] none (some pfx)).length = 1 := by
  refine ⟨?_, rfl⟩
  rcases h with h | h <;>
    simp [createBlobCsvRef, get_valid_blob_name_pfx, h]

/-- C9 witness: the amended statement at the concrete name prefix `x/y-`. -/
theorem C9_legacy_rejects_separator_witness :
    (strContainsChar "x/y-" '/' = true ∨ strContainsChar "x/y-" '\\' = true)
      ∧ createBlobCsvRef "acct" "key123" "c" "n" none (some "x/y-")
          = .error (.valueError "Blob name prefix should not contain / nor \\")
      ∧ (create_blob_refs "acct" "key123" "c" ["n"] none (some "x/y-")).length = 1 :=
  ⟨Or.inl (by decide),
    (C9_legacy_rejects_separator_modern_does_not "x/y-" (Or.inl (by decide))).1,
    (C9_legacy_rejects_separator_modern_does_not "x/y-" (Or.inl (by decide))).2⟩

/-! ## Tables and the table codec (`base_databinding.py`) -/

/-- A scalar cell value of an in-memory table.  Floating-point and datetime
scalars of the source are outside the scope of the verified properties and
are not modelled. -/
inductive Scalar where
  | sNull
  | sBool (b : Bool)
  | sInt (n : Int)
  | sStr (s : String)
deriving DecidableEq

/-- The in-memory table (the `pandas.DataFrame` shape the source reads:
`df.columns`, `df.values`, `df.shape[0]`, positional alignment of each row
to the column list). -/
structure DF where
  cols : List String
  rows : List (List Scalar)
deriving DecidableEq

/-- An AzureML wire table: either the swagger format (a list of ordered
per-row mappings) or the non-swagger format (`ColumnNames` + `Values`). -/
inductive AzmlTable where
  | swaggerTable (rows : List (List (String × Scalar)))
  | colsTable (columnNames : List String) (values : List (List Scalar))
deriving DecidableEq

/-- `df_to_azmltable` of `base_databinding.py` (without the
`mimic_azml_output` wrapping, which no verified property touches): swagger
mode produces one ordered mapping per row following the column order;
non-swagger mode produces `{ColumnNames, Values}`. -/
def df_to_azmltable (df : DF) (swagger : Bool) : AzmlTable :=
  if swagger then
    AzmlTable.swaggerTable (df.rows.map (fun r => df.cols.zip r))
  else
    AzmlTable.colsTable df.cols df.rows

/-- Python `row[k]` on an ordered per-row mapping. -/
def lookupRowKey (row : List (String × Scalar)) (k : String) : Option Scalar :=
  (row.find? (fun kv => kv.fst == k)).map (fun kv => kv.snd)

/-- `[row[k] for k in col_names]`: `none` when some key is missing
(Python `KeyError`). -/
def rowVals (col_names : List String) (row : List (String × Scalar)) :
    Option (List Scalar) :=
  col_names.mapM (lookupRowKey row)

/-- The per-row loop of `azmltable_to_df` in swagger mode: each row must
contain every column of the first row (`KeyError` is converted to a
`ValueError` naming the row), and must not be longer than the first row
(extra keys give a `ValueError` naming the row).  The key/set details of
the source's messages are abbreviated. -/
def swaggerValues (col_names : List String) :
    List (List (String × Scalar)) → Nat → Except PyExc (List (List Scalar))
  | [], _ => .ok []
  | row :: rest, i =>
    match rowVals col_names row with
    | none =>
        .error (.valueError ("A column is missing in row #" ++ toString (i + 1)))
    | some vals =>
        if row.length > col_names.length then
          .error (.valueError ("Columns are present in row #" ++ toString (i + 1)
            ++ " but not in the first row"))
        else
          match swaggerValues col_names rest (i + 1) with
          | .error e => .error e
          | .ok tail => .ok (vals :: tail)

/-- Models the source's dump-to-CSV-and-re-parse step used by
`azmltable_to_df` for a non-empty `values` list: the round trip through
the `unix` CSV dialect and `csv_to_df` preserves the column list and the
rectangular row structure.  The pandas scalar re-inference performed on
reload is not modelled; no verified property depends on it (the verified
properties only exercise the empty-values branch). -/
def csv_roundtrip_parse (col_names : List String) (values : List (List Scalar)) : DF :=
  { cols := col_names, rows := values }

/-- The common tail of `azmltable_to_df`: non-empty values go through the
CSV round trip, empty values give `pandas.DataFrame(columns=col_names)`,
a zero-row table with the given columns. -/
def values_to_df (col_names : List String) (values : List (List Scalar)) : DF :=
  if values.length > 0 then csv_roundtrip_parse col_names values
  else { cols := col_names, rows := [] }

/-- `azmltable_to_df` of `base_databinding.py` (without the
`is_azml_output` unwrapping, which no verified property touches).  In
swagger mode an empty list yields column list `[]`; otherwise column order
is taken from the first row and every row is checked by `swaggerValues`.
In non-swagger mode `ColumnNames`/`Values` are read off directly (their
presence is enforced by the `AzmlTable` type). -/
def azmltable_to_df : AzmlTable → Except PyExc DF
  | .swaggerTable rows =>
    match rows with
    | [] => .ok (values_to_df [] [])
    | first :: _ =>
      let col_names := first.map (fun kv => kv.fst)
      match swaggerValues col_names rows 0 with
      | .error e => .error e
      | .ok values => .ok (values_to_df col_names values)
  | .colsTable col_names values => .ok (values_to_df col_names values)

/-- The zero-row table with columns `a`, `b`. -/
def df_ab : DF := { cols := ["a", "b"], rows := [] }

/-- C4 counterexample: in row (swagger) mode, the wire form of the zero-row
table with columns `a`, `b` is the empty list, and converting it back
yields a table with zero columns — the column list is not preserved. -/
theorem C4_row_mode_empty_loses_columns :
    azmltable_to_df (df_to_azmltable df_ab true) = .ok { cols := [], rows := [] }
      ∧ ({ cols := [], rows := [] } : DF) ≠ df_ab := by
  exact ⟨rfl, by decide⟩

/-- C4 (amended): the zero-row table with columns `a`, `b` round-trips
through the wire format in column (non-swagger) mode; in row (swagger)
mode the round trip instead returns a zero-row table with zero columns,
because the empty wire sequence carries no column information. -/
theorem C4_empty_roundtrip_by_mode :
    azmltable_to_df (df_to_azmltable df_ab false) = .ok df_ab
      ∧ azmltable_to_df (df_to_azmltable df_ab true) = .ok { cols := [], rows := [] } :=
  ⟨rfl, rfl⟩

/-! ## Parameter codec (`params_df_to_params_dict`) -/

/-- `params_df_to_params_dict` of `base_databinding.py`:
`{param_name: params_df.at[0, param_name] for param_name in params_df.columns.values}`.
`.at[0, c]` is a label lookup on the default integer index: with zero rows
the label `0` does not exist and a `KeyError` is raised; with one or more
rows it returns the first row's value for column `c`, so the result is the
column list zipped with the first row.  No row-count check is performed. -/
def params_df_to_params_dict (params_df : DF) : Except PyExc (List (String × Scalar)) :=
  match params_df.rows with
  | [] => .error (.keyError "0")
  | r0 :: _ => .ok (params_df.cols.zip r0)

/-- A two-row parameter table. -/
def twoRowDF : DF :=
  { cols := ["a", "b"],
    rows := [[Scalar.sInt 1, Scalar.sStr "x"], [Scalar.sInt 2, Scalar.sStr "y"]] }

/-- C6 counterexample: a two-row parameter table does not raise any error —
`params_df_to_params_dict` silently returns the first row's values. -/
theorem C6_two_rows_not_rejected :
    params_df_to_params_dict twoRowDF
        = .ok [("a", Scalar.sInt 1), ("b", Scalar.sStr "x")]
      ∧ exceptIsOk (params_df_to_params_dict twoRowDF) = true :=
  ⟨rfl, rfl⟩

/-- C6 (amended): converting a parameter table performs no single-row
check.  A zero-row table raises `KeyError` for the missing row label `0`
(not a dedicated not-single-row error); a table with one or more rows —
including more than one — returns the map from each column name to the
FIRST row's value, ignoring any further rows. -/
theorem C6_params_first_row_no_check (df : DF) :
    (df.rows = [] → params_df_to_params_dict df = .error (.keyError "0"))
      ∧ (∀ r0 rest, df.rows = r0 :: rest →
          params_df_to_params_dict df = .ok (df.cols.zip r0)) := by
  constructor
  · intro h
    simp [params_df_to_params_dict, h]
  · intro r0 rest h
    simp [params_df_to_params_dict, h]

/-- C6 witness: the amended statement at a zero-row table and at the
one-row table `a=1, b="x"` from the specification. -/
theorem C6_params_first_row_witness :
    (DF.mk ["a"] []).rows = []
      ∧ params_df_to_params_dict (DF.mk ["a"] []) = .error (.keyError "0")
      ∧ (DF.mk ["a", "b"] [[Scalar.sInt 1, Scalar.sStr "x"]]).rows
          = [[Scalar.sInt 1, Scalar.sStr "x"]]
      ∧ params_df_to_params_dict (DF.mk ["a", "b"] [[Scalar.sInt 1, Scalar.sStr "x"]])
          = .ok [("a", Scalar.sInt 1), ("b", Scalar.sStr "x")] :=
  ⟨rfl,
    (C6_params_first_row_no_check (DF.mk ["a"] [])).1 rfl,
    rfl,
    (C6_params_first_row_no_check
      (DF.mk ["a", "b"] [[Scalar.sInt 1, Scalar.sStr "x"]])).2
      [Scalar.sInt 1, Scalar.sStr "x"] [] rfl⟩

/-! ## The custom JSON scalar serializer (`azml_json_serializer`) -/

/-- A Python object as seen by the serializer's `isinstance` dispatch: the
boolean fields record membership in each of the runtime types tested by
the source (`np.integer`, `bool`, `np.floating`, `np.ndarray`,
`datetime`), and `asInt` / `asBool` carry the value used by the matching
conversion. -/
structure PyObj where
  is_np_integer : Bool
  is_bool : Bool
  is_np_floating : Bool
  is_np_ndarray : Bool
  is_datetime : Bool
  asInt : Int
  asBool : Bool
deriving DecidableEq

/-- What the serializer emits for an object (payloads of the float, array
and datetime conversions are irrelevant to the verified properties and
elided). -/
inductive SerResult where
  | emitInt (n : Int)
  | emitBool (b : Bool)
  | emitFloat
  | emitList
  | emitIsoString
  | typeError
deriving DecidableEq

/-- `azml_json_serializer` of `base_databinding.py`, preserving the
source's branch order: `np.integer` is tested FIRST (the source comments
"since numpy ints are also bools, do ints first"), then `bool`, then
`np.floating`, `np.ndarray` and `datetime`; anything else raises
`TypeError`. -/
def azml_json_serializer (obj : PyObj) : SerResult :=
  if obj.is_np_integer then SerResult.emitInt obj.asInt
  else if obj.is_bool then SerResult.emitBool obj.asBool
  else if obj.is_np_floating then SerResult.emitFloat
  else if obj.is_np_ndarray then SerResult.emitList
  else if obj.is_datetime then SerResult.emitIsoString
  else SerResult.typeError

/-- C5 counterexample: a scalar satisfying both the `np.integer` and the
`bool` membership tests (the overlap the source's own comment asserts) is
emitted as an integer, not as a boolean — so the boolean check is NOT
applied before the integer check. -/
theorem C5_bool_and_npint_emitted_as_int :
    (PyObj.mk true true false false false 1 true).is_bool = true
      ∧ azml_json_serializer (PyObj.mk true true false false false 1 true)
          = SerResult.emitInt 1
      ∧ azml_json_serializer (PyObj.mk true true false false false 1 true)
          ≠ SerResult.emitBool true := by
  exact ⟨rfl, rfl, by decide⟩

/-- C5 (amended): the serializer applies the `np.integer` check BEFORE the
boolean check: a boolean scalar is emitted as a JSON boolean exactly when
it does not also pass the `np.integer` test, and is emitted as an integer
when it does. -/
theorem C5_int_check_before_bool_check (obj : PyObj) (hb : obj.is_bool = true) :
    azml_json_serializer obj =
      (if obj.is_np_integer then SerResult.emitInt obj.asInt
       else SerResult.emitBool obj.asBool) := by
  by_cases hi : obj.is_np_integer <;>
    simp [azml_json_serializer, hb, hi]

/-- C5 witness: the amended statement at a plain Python boolean (not a
numpy integer), which is emitted as a JSON boolean. -/
theorem C5_int_check_before_bool_check_witness :
    (PyObj.mk false true false false false 1 true).is_bool = true
      ∧ azml_json_serializer (PyObj.mk false true false false false 1 true)
          = SerResult.emitBool true :=
  ⟨rfl, C5_int_check_before_bool_check (PyObj.mk false true false false false 1 true) rfl⟩

/-! ## Parsed JSON values and dictionaries -/

/-- A parsed JSON value (`json.loads` output). -/
inductive JVal where
  | jnull
  | jbool (b : Bool)
  | jint (n : Int)
  | jstr (s : String)
  | jarr (xs : List JVal)
  | jobj (fields : List (String × JVal))

/-- A parsed JSON object, key/value pairs in insertion order (the source
parses with `object_pairs_hook=OrderedDict`). -/
abbrev JDict := List (String × JVal)

/-- Python `d[k]` on a parsed JSON object: the value, or `KeyError`. -/
def dictGet (d : JDict) (k : String) : Except PyExc JVal :=
  match d.find? (fun kv => kv.fst == k) with
  | some kv => .ok kv.snd
  | none => .error (.keyError k)

/-- Python `v[k]` where `v` should be a parsed JSON object; subscripting a
non-object with a string is a `TypeError`. -/
def dictGetJ (v : JVal) (k : String) : Except PyExc JVal :=
  match v with
  | .jobj fields => dictGet fields k
  | _ => .error (.typeError "value is not subscriptable by a string key")

/-- Python `v[0]` where `v` should be a parsed JSON list: `IndexError` on
an empty list, `TypeError` on a non-list. -/
def jIndex0 : JVal → Except PyExc JVal
  | .jarr [] => .error .indexError
  | .jarr (x :: _) => .ok x
  | _ => .error (.typeError "value is not subscriptable by an integer index")

/-- Python `str(v)` / `'%s' % v` for a parsed JSON value.  The rendering of
nested containers is abbreviated; no verified property depends on it. -/
def pyStr : JVal → String
  | .jnull => "None"
  | .jbool b => if b then "True" else "False"
  | .jint n => toString n
  | .jstr s => s
  | .jarr _ => "<list>"
  | .jobj _ => "<dict>"

/-- Python's rendering of a parsed JSON object inside a `%s` format, with
the per-value rendering of `pyStr` (quoting and nesting abbreviated). -/
def reprDict (d : JDict) : String :=
  "OrderedDict([" ++
    String.intercalate ", "
      (d.map (fun kv => "(" ++ kv.fst ++ ", " ++ pyStr kv.snd ++ ")")) ++ "])"

/-- Python `v == lit` for a string literal `lit`: true only for an equal
string (`'3' == 3` is `False` in Python). -/
def jvalEqStr (v : JVal) (lit : String) : Bool :=
  match v with
  | .jstr s => s == lit
  | _ => false

/-! ## Job status classification (`BatchClient.read_status_or_result_static`) -/

/-- The message of the `ValueError` raised by
`read_status_or_result_static` when a `KeyError` escapes its `try` block. -/
def job_state_error_msg (d : JDict) : String :=
  "Error reading job state : received " ++ reprDict d

/-- The `try` block of `read_status_or_result_static` in `base.py`:
look up `StatusCode`; `'3'`/`'Cancelled'` raise `IllegalJobStateException`;
`'2'`/`'Failed'` raise `JobExecutionException` carrying `Details` (looked
up while formatting the message); `'0'`/`'NotStarted'`/`'1'`/`'Running'`/
`'4'`/`'Finished'` return `result_dict['Results']`; any other value falls
to the unknown-state branch, which concatenates the status code into the
message (a `TypeError` for a non-string, exactly as Python `+` would
raise). -/
def read_status_inner (d : JDict) : Except PyExc JVal :=
  match dictGet d "StatusCode" with
  | .error e => .error e
  | .ok sc =>
    if jvalEqStr sc "3" || jvalEqStr sc "Cancelled" then
      .error (.illegalJobState
        ("The job state is " ++ pyStr sc ++ " : cannot read the outcome"))
    else if jvalEqStr sc "2" || jvalEqStr sc "Failed" then
      match dictGet d "Details" with
      | .error e => .error e
      | .ok det =>
          .error (.jobExecution ("The job ended with an error : " ++ pyStr det))
    else if jvalEqStr sc "0" || jvalEqStr sc "NotStarted" || jvalEqStr sc "1"
        || jvalEqStr sc "Running" || jvalEqStr sc "4" || jvalEqStr sc "Finished" then
      dictGet d "Results"
    else
      match sc with
      | .jstr s => .error (.illegalJobState ("The job state is " ++ s ++ " : unknown state"))
      | _ => .error (.typeError "can only concatenate str to str")

/-- `BatchClient.read_status_or_result_static` of `base.py`: the `try`
block above with `except KeyError` converting any `KeyError` into a
`ValueError` describing the received payload. -/
def read_status_or_result_static (d : JDict) : Except PyExc JVal :=
  match read_status_inner d with
  | .error (.keyError _) => .error (.valueError (job_state_error_msg d))
  | r => r

/-- C2: classification of a job status snapshot by its (string-valued)
`StatusCode`: `3`/`Cancelled` raise `IllegalJobStateException`;
`2`/`Failed` raise `JobExecutionException` carrying the snapshot's
`Details`; the six in-progress-or-done codes return the snapshot's
`Results` value as is (whether null or not); any other string code raises
`IllegalJobStateException` reporting an unknown state. -/
theorem C2_status_code_classification (d : JDict) (sc : String)
    (h : dictGet d "StatusCode" = .ok (.jstr sc)) :
    ((sc = "3" ∨ sc = "Cancelled") →
        read_status_or_result_static d = .error (.illegalJobState
          ("The job state is " ++ sc ++ " : cannot read the outcome")))
      ∧ (∀ det, (sc = "2" ∨ sc = "Failed") → dictGet d "Details" = .ok det →
          read_status_or_result_static d = .error (.jobExecution
            ("The job ended with an error : " ++ pyStr det)))
      ∧ (∀ res, (sc = "0" ∨ sc = "NotStarted" ∨ sc = "1" ∨ sc = "Running"
            ∨ sc = "4" ∨ sc = "Finished") → dictGet d "Results" = .ok res →
          read_status_or_result_static d = .ok res)
      ∧ (sc ∉ (["3", "Cancelled", "2", "Failed", "0", "NotStarted", "1",
            "Running", "4", "Finished"] : List String) →
          read_status_or_result_static d = .error (.illegalJobState
            ("The job state is " ++ sc ++ " : unknown state"))) := by
  refine ⟨?_, ?_, ?_, ?_⟩
  · rintro (rfl | rfl) <;>
      simp [read_status_or_result_static, read_status_inner, h, jvalEqStr, pyStr]
  · rintro det (rfl | rfl) hdet <;>
      simp [read_status_or_result_static, read_status_inner, h, jvalEqStr, hdet]
  · rintro res (rfl | rfl | rfl | rfl | rfl | rfl) hres <;>
      simp [read_status_or_result_static, read_status_inner, h, jvalEqStr, hres]
  · intro hmem
    simp only [List.mem_cons, List.not_mem_nil, or_false, not_or] at hmem
    obtain ⟨h3, hC, h2, hF, h0, hN, h1, hR, h4, hFi⟩ := hmem
    simp [read_status_or_result_static, read_status_inner, h, jvalEqStr,
      h3, hC, h2, hF, h0, hN, h1, hR, h4, hFi]

/-- C2 witness: the classification at four concrete snapshots — a
`Cancelled` job, a `Failed` job carrying `Details`, a `Finished` job with
non-null `Results`, and the unrecognized code `99`. -/
theorem C2_status_code_classification_witness :
    read_status_or_result_static [("StatusCode", JVal.jstr "Cancelled")]
        = .error (.illegalJobState "The job state is Cancelled : cannot read the outcome")
      ∧ read_status_or_result_static
            [("StatusCode", JVal.jstr "2"), ("Details", JVal.jstr "oops")]
          = .error (.jobExecution "The job ended with an error : oops")
      ∧ read_status_or_result_static
            [("StatusCode", JVal.jstr "4"), ("Results", JVal.jobj [("out1", JVal.jstr "loc")])]
          = .ok (JVal.jobj [("out1", JVal.jstr "loc")])
      ∧ read_status_or_result_static [("StatusCode", JVal.jstr "99")]
          = .error (.illegalJobState "The job state is 99 : unknown state") :=
  ⟨(C2_status_code_classification [("StatusCode", JVal.jstr "Cancelled")]
      "Cancelled" rfl).1 (Or.inr rfl),
    (C2_status_code_classification
      [("StatusCode", JVal.jstr "2"), ("Details", JVal.jstr "oops")]
      "2" rfl).2.1 (JVal.jstr "oops") (Or.inl rfl) rfl,
    (C2_status_code_classification
      [("StatusCode", JVal.jstr "4"), ("Results", JVal.jobj [("out1", JVal.jstr "loc")])]
      "4" rfl).2.2.1 (JVal.jobj [("out1", JVal.jstr "loc")])
      (Or.inr (Or.inr (Or.inr (Or.inr (Or.inl rfl))))) rfl,
    (C2_status_code_classification [("StatusCode", JVal.jstr "99")]
      "99" rfl).2.2.2 (by decide)⟩

/-- C10: a snapshot without a `StatusCode` key, or with an
in-progress-or-done `StatusCode` but without a `Results` key, makes
`read_status_or_result_static` raise a `ValueError` describing the
received payload (the `KeyError` escaping the `try` block is converted),
rather than classifying the snapshot. -/
theorem C10_missing_keys_value_error (d : JDict) :
    (dictGet d "StatusCode" = .error (.keyError "StatusCode") →
        read_status_or_result_static d = .error (.valueError (job_state_error_msg d)))
      ∧ (∀ sc, (sc = "0" ∨ sc = "NotStarted" ∨ sc = "1" ∨ sc = "Running"
            ∨ sc = "4" ∨ sc = "Finished") →
          dictGet d "StatusCode" = .ok (.jstr sc) →
          dictGet d "Results" = .error (.keyError "Results") →
          read_status_or_result_static d = .error (.valueError (job_state_error_msg d))) := by
  constructor
  · intro h
    simp [read_status_or_result_static, read_status_inner, h]
  · rintro sc (rfl | rfl | rfl | rfl | rfl | rfl) hsc hres <;>
      simp [read_status_or_result_static, read_status_inner, hsc, jvalEqStr, hres]

/-- C10 witness: the empty snapshot (no `StatusCode`), and a `Finished`
snapshot without a `Results` key. -/
theorem C10_missing_keys_value_error_witness :
    read_status_or_result_static []
        = .error (.valueError (job_state_error_msg []))
      ∧ read_status_or_result_static [("StatusCode", JVal.jstr "Finished")]
          = .error (.valueError (job_state_error_msg [("StatusCode", JVal.jstr "Finished")])) :=
  ⟨(C10_missing_keys_value_error []).1 rfl,
    (C10_missing_keys_value_error [("StatusCode", JVal.jstr "Finished")]).2
      "Finished" (Or.inr (Or.inr (Or.inr (Or.inr (Or.inr rfl))))) rfl rfl⟩

/-! ## The remote-error exception (`AzmlException.__init__`) -/

/-- The first `try` block of `AzmlException.__init__` in
`base_databinding.py`: read `error` from the body, `code` and `message`
from inside it, and `details` from the TOP LEVEL of the body
(`error_as_dict['details']`, not `error_dict['details']`); a `KeyError`
becomes a `ValueError` about an unrecognized format. -/
def azml_exception_main (body : JDict) : Except PyExc (JVal × JVal × JVal) :=
  match dictGet body "error" with
  | .error e => .error e
  | .ok error_dict =>
    match dictGetJ error_dict "code" with
    | .error e => .error e
    | .ok error_code =>
      match dictGetJ error_dict "message" with
      | .error e => .error e
      | .ok error_message =>
        match dictGet body "details" with
        | .error e => .error e
        | .ok _ => .ok (error_dict, error_code, error_message)

/-- The second `try` block of `AzmlException.__init__`: read
`error_as_dict['details'][0]` and its `code` and `message`. -/
def azml_exception_details (body : JDict) : Except PyExc (JVal × JVal) :=
  match dictGet body "details" with
  | .error e => .error e
  | .ok details =>
    match jIndex0 details with
    | .error e => .error e
    | .ok details_dict =>
      match dictGetJ details_dict "code" with
      | .error e => .error e
      | .ok details_code =>
        match dictGetJ details_dict "message" with
        | .error e => .error e
        | .ok details_msg => .ok (details_code, details_msg)

/-- `AzmlException.__init__` of `base_databinding.py`, returning the
message the exception is constructed with: the first `try` block converts
a `KeyError` into a `ValueError`; the second falls back from
`Error [code][detailCode]: message. detailMessage` to
`Error [code]: message` on `IndexError` or `KeyError`. -/
def azml_exception_init (body : JDict) : Except PyExc String :=
  match azml_exception_main body with
  | .error (.keyError _) =>
      .error (.valueError
        ("Unrecognized format for AzureML http error. JSON content is :\n " ++ reprDict body))
  | .error e => .error e
  | .ok (_, error_code, error_message) =>
    match azml_exception_details body with
    | .ok (details_code, details_msg) =>
        .ok ("Error [" ++ pyStr error_code ++ "][" ++ pyStr details_code ++ "]: "
          ++ pyStr error_message ++ ". " ++ pyStr details_msg)
    | .error (.keyError _) =>
        .ok ("Error [" ++ pyStr error_code ++ "]: " ++ pyStr error_message)
    | .error .indexError =>
        .ok ("Error [" ++ pyStr error_code ++ "]: " ++ pyStr error_message)
    | .error e => .error e

/-- The standard AzureML error body of the claim:
`error` carrying `code`, `message` and a one-element `details` list. -/
def c3_body : JDict :=
  [("error", JVal.jobj
    [("code", JVal.jstr "E1"), ("message", JVal.jstr "bad"),
      ("details", JVal.jarr
        [JVal.jobj [("code", JVal.jstr "D1"), ("message", JVal.jstr "detail")]])])]

/-- The same body with an empty `details` list inside `error`. -/
def c3_body_empty_details : JDict :=
  [("error", JVal.jobj
    [("code", JVal.jstr "E1"), ("message", JVal.jstr "bad"),
      ("details", JVal.jarr [])])]

/-- C3: on the claim's payloads — `details` nested inside `error`, as the
remote service sends it — the constructor never builds the claimed
messages: `error_as_dict['details']` is looked up at the TOP level of the
body, the lookup raises `KeyError`, and the `except` clause turns it into
a `ValueError` about an unrecognized format. -/
theorem C3_exception_rejects_standard_payload :
    azml_exception_init c3_body
        = .error (.valueError
            ("Unrecognized format for AzureML http error. JSON content is :\n "
              ++ reprDict c3_body))
      ∧ azml_exception_init c3_body ≠ .ok "Error [E1][D1]: bad. detail"
      ∧ azml_exception_init c3_body_empty_details
          = .error (.valueError
              ("Unrecognized format for AzureML http error. JSON content is :\n "
                ++ reprDict c3_body_empty_details))
      ∧ azml_exception_init c3_body_empty_details ≠ .ok "Error [E1]: bad" := by
  refine ⟨rfl, ?_, rfl, ?_⟩ <;> intro h <;> exact nomatch h

/-! ## The batch execution driver (`execute_bes` in `base.py`) -/

/-- Python `v is None` for a parsed JSON value. -/
def isNone : JVal → Bool
  | .jnull => true
  | _ => false

/-- The scripted behaviour of the remote service across one `execute_bes`
run: the result of the job-creation call, of the start call, of each
successive poll (already parsed into a status snapshot), and of the
deletion call.  An `.error` entry is the exception that call raises. -/
structure BesScript where
  createRes : Except PyExc String
  startRes : Except PyExc Unit
  pollRes : List (Except PyExc JDict)
  deleteRes : Except PyExc Unit

/-- The observable calls `execute_bes` makes against the service. -/
inductive BesEvent where
  | createCall
  | startCall
  | pollCall
  | deleteCall
deriving DecidableEq

/-- The polling loop of `execute_bes` (`while outputs_refs2 is None`),
run against the scripted poll results: each iteration polls, classifies
the snapshot with `read_status_or_result_static`, and loops again exactly
when the classification returns `None`; an exception from the poll or the
classification ends the loop.  `none` means the script was exhausted with
the loop still running. -/
def runPolls : List (Except PyExc JDict) → Option (Except PyExc JVal)
  | [] => none
  | p :: rest =>
    match p with
    | .error e => some (.error e)
    | .ok d =>
      match read_status_or_result_static d with
      | .error e => some (.error e)
      | .ok rv => if isNone rv then runPolls rest else some (.ok rv)

/-- The number of poll calls the loop performs on the given script. -/
def numPolls : List (Except PyExc JDict) → Nat
  | [] => 0
  | p :: rest =>
    match p with
    | .error _ => 1
    | .ok d =>
      match read_status_or_result_static d with
      | .error _ => 1
      | .ok rv => if isNone rv then 1 + numPolls rest else 1

/-- The outcome of the `try` body of `execute_bes` after job creation
succeeded: an exception from the start call, or the polling loop's
outcome (`none` when the script was exhausted). -/
def bes_body (s : BesScript) : Option (Except PyExc JVal) :=
  match s.startRes with
  | .error e => some (.error e)
  | .ok _ => runPolls s.pollRes

/-- Python `try/finally` semantics applied to the deletion call in
`execute_bes`: an exception raised by the `finally` body replaces the
in-flight outcome; otherwise the in-flight outcome stands. -/
def applyFinally (body : Except PyExc JVal) (deleteRes : Except PyExc Unit) :
    Except PyExc JVal :=
  match deleteRes with
  | .error e => .error e
  | .ok _ => body

/-- The sequence of service calls `execute_bes` makes on the given script:
create; if creation succeeded, start and poll inside the `try`, and — as
`json_job_id` is then not `None` — exactly one deletion call in the
`finally` (no deletion when creation raised, since `json_job_id` is still
`None`; none yet when the script leaves the loop still running). -/
def execute_bes_trace (s : BesScript) : List BesEvent :=
  match s.createRes with
  | .error _ => [.createCall]
  | .ok _ =>
    match s.startRes with
    | .error _ => [.createCall, .startCall, .deleteCall]
    | .ok _ =>
      match runPolls s.pollRes with
      | none => [.createCall, .startCall]
            ++ List.replicate (numPolls s.pollRes) .pollCall
      | some _ => [.createCall, .startCall]
            ++ List.replicate (numPolls s.pollRes) .pollCall ++ [.deleteCall]

/-- The final outcome of the `try/finally` of `execute_bes` on the given
script: the creation exception as is when creation raised (no deletion),
otherwise the body outcome filtered through the deletion call by
`applyFinally`; `none` when the script leaves the loop still running. -/
def execute_bes_result (s : BesScript) : Option (Except PyExc JVal) :=
  match s.createRes with
  | .error e => some (.error e)
  | .ok _ =>
    match bes_body s with
    | none => none
    | some b => some (applyFinally b s.deleteRes)

/-- C1: on every run whose job creation returned a job id and whose
start/poll phase came to an outcome, the deletion call is made exactly
once, strictly after every other call; and when the start call or a poll
raised and the deletion call itself succeeds, that exception is the final
outcome — it still propagates to the caller after the deletion attempt. -/
theorem C1_delete_once_then_error_propagates (s : BesScript) (jid : String)
    (body : Except PyExc JVal)
    (hc : s.createRes = .ok jid) (hb : bes_body s = some body) :
    (execute_bes_trace s).count BesEvent.deleteCall = 1
      ∧ (execute_bes_trace s).getLast? = some BesEvent.deleteCall
      ∧ (∀ e : PyExc, body = .error e → s.deleteRes = .ok () →
          execute_bes_result s = some (.error e)) := by
  have hpoll : ∀ n, (List.replicate n BesEvent.pollCall).count BesEvent.deleteCall = 0 := by
    intro n
    simp [List.count_replicate]
  refine ⟨?_, ?_, ?_⟩
  · cases hs : s.startRes with
    | error e => simp [execute_bes_trace, hc, hs]
    | ok u =>
      have hb2 : runPolls s.pollRes = some body := by
        unfold bes_body at hb
        rw [hs] at hb
        exact hb
      simp [execute_bes_trace, hc, hs, hb2, List.count_append, List.count_cons, hpoll]
  · cases hs : s.startRes with
    | error e => simp [execute_bes_trace, hc, hs]
    | ok u =>
      have hb2 : runPolls s.pollRes = some body := by
        unfold bes_body at hb
        rw [hs] at hb
        exact hb
      have htr : execute_bes_trace s
          = (BesEvent.createCall :: BesEvent.startCall ::
              List.replicate (numPolls s.pollRes) BesEvent.pollCall)
            ++ [BesEvent.deleteCall] := by
        simp [execute_bes_trace, hc, hs, hb2]
      rw [htr, List.getLast?_concat]
  · intro e he hd
    simp [execute_bes_result, hc, hb, he, hd, applyFinally]

/-- The status snapshot of a still-running job (`Results` null). -/
def d_running : JDict := [("StatusCode", JVal.jstr "1"), ("Results", JVal.jnull)]

/-- A script in which the second poll raises a `TransportError` and the
deletion call succeeds. -/
def c1_script : BesScript :=
  { createRes := .ok "job-1", startRes := .ok (),
    pollRes := [.ok d_running, .error (.transportError "boom")],
    deleteRes := .ok () }

/-- C1 witness: on `c1_script` — creation returns a job id, the second
poll raises `TransportError` — deletion is called exactly once, after
every other call, and the `TransportError` is the final outcome. -/
theorem C1_delete_once_witness :
    c1_script.createRes = .ok "job-1"
      ∧ bes_body c1_script = some (.error (.transportError "boom"))
      ∧ (execute_bes_trace c1_script).count BesEvent.deleteCall = 1
      ∧ (execute_bes_trace c1_script).getLast? = some BesEvent.deleteCall
      ∧ execute_bes_result c1_script = some (.error (.transportError "boom")) :=
  ⟨rfl, rfl,
    (C1_delete_once_then_error_propagates c1_script "job-1"
      (.error (.transportError "boom")) rfl rfl).1,
    (C1_delete_once_then_error_propagates c1_script "job-1"
      (.error (.transportError "boom")) rfl rfl).2.1,
    (C1_delete_once_then_error_propagates c1_script "job-1"
      (.error (.transportError "boom")) rfl rfl).2.2
      (.transportError "boom") rfl rfl⟩

/-- A script in which the only poll raises a `TransportError` and the
deletion call raises too. -/
def c7_script_a : BesScript :=
  { createRes := .ok "job-2", startRes := .ok (),
    pollRes := [.error (.transportError "poll-failed")],
    deleteRes := .error (.azmlError "delete-failed") }

/-- The status snapshot of a finished job with non-null `Results`. -/
def d_finished : JDict :=
  [("StatusCode", JVal.jstr "4"),
    ("Results", JVal.jobj [("out1", JVal.jstr "loc")])]

/-- A script in which polling succeeds but the deletion call raises. -/
def c7_script_b : BesScript :=
  { createRes := .ok "job-3", startRes := .ok (),
    pollRes := [.ok d_finished],
    deleteRes := .error (.azmlError "delete-failed") }

/-- C7 counterexample: when the deletion call raises while a poll
exception is propagating, the deletion error IS the final outcome — it
masks the earlier `TransportError`; and after a successful run, a
deletion failure propagates to the caller instead of being reported as a
secondary warning. -/
theorem C7_delete_error_masks :
    execute_bes_result c7_script_a = some (.error (.azmlError "delete-failed"))
      ∧ PyExc.azmlError "delete-failed" ≠ PyExc.transportError "poll-failed"
      ∧ execute_bes_result c7_script_b = some (.error (.azmlError "delete-failed")) :=
  ⟨rfl, by decide, rfl⟩

/-- C7 (amended): the `finally` block of `execute_bes` deletes the job
with no exception handling, so — by Python `try/finally` semantics — a
failure of the deletion call replaces whatever outcome was in flight: the
caller sees the deletion error both when an earlier start/poll error was
propagating and when the run had succeeded. -/
theorem C7_delete_error_replaces_outcome (s : BesScript) (jid : String)
    (body : Except PyExc JVal) (e : PyExc)
    (hc : s.createRes = .ok jid) (hb : bes_body s = some body)
    (hd : s.deleteRes = .error e) :
    execute_bes_result s = some (.error e) := by
  unfold execute_bes_result
  rw [hc, hb, hd]
  rfl

/-- C7 witness: the amended statement on `c7_script_a`. -/
theorem C7_delete_error_replaces_outcome_witness :
    c7_script_a.createRes = .ok "job-2"
      ∧ bes_body c7_script_a = some (.error (.transportError "poll-failed"))
      ∧ c7_script_a.deleteRes = .error (.azmlError "delete-failed")
      ∧ execute_bes_result c7_script_a = some (.error (.azmlError "delete-failed")) :=
  ⟨rfl, rfl, rfl,
    C7_delete_error_replaces_outcome c7_script_a "job-2"
      (.error (.transportError "poll-failed")) (.azmlError "delete-failed")
      rfl rfl rfl⟩
